import Mathlib

/-!
Shallow embedding of the parrot character device (src/parrot.c), an example
client of the XMP memory-isolation primitives: a single isolated page holds
the last written message; the page pointer is signed into a capability on
write and authenticated on every subsequent use.  The XMP primitives
themselves (`xmp_sign_ptr`, `xmp_auth_ptr`, `xmp_unprotect`, `xmp_protect`,
`xmp_alloc_pdomain`, `xmp_free_pdomain`) come from `xen/interface/xmp.h`,
which is not part of this repository, and are modelled from the spec.
-/

namespace Parrot

/-- One isolated page, as allocated by `get_zeroed_page` (4096 bytes). -/
def PAGE_SIZE : Nat := 4096

/-- The context token the driver signs and authenticates with
(`THIS_MODULE` in the source); an opaque identity value. -/
def THIS_MODULE : Nat := 0

/-- Modelled from the spec: the Capability Codec lives in
`xen/interface/xmp.h`, absent from this repository.  A capability is a
tamper-evident wrapper over (raw handle, context, protection domain)
(spec section 3); we model the opaque value by its signed components. -/
structure Capability where
  handle : Nat
  ctx : Nat
  pdomain : Nat
deriving DecidableEq, Repr

/-- Modelled from the spec: `xmp_sign_ptr` binds a raw handle to
(context, domain) and yields the opaque capability (spec section 4.2). -/
def xmp_sign_ptr (h c d : Nat) : Capability := ⟨h, c, d⟩

/-- Modelled from the spec: the codec-level `authenticate` returns the
original handle only when the presented context and domain are exactly the
signing ones and the domain is still allocated; any discrepancy is an
authentication failure, modelled as `none` (spec section 4.2). -/
def authenticate (cap : Capability) (c d : Nat) (allocated : Nat → Bool) : Option Nat :=
  if cap.ctx = c ∧ cap.pdomain = d ∧ allocated d = true then some cap.handle else none

/-- A protection transition or an action taken between transitions, as
performed by `parrot_write` (src/parrot.c lines 116-119). -/
inductive ProtEvent where
  | unprotect (d : Nat)
  | copyFromUser (n : Nat)
  | setMessageSize (n : Nat)
  | protect
deriving DecidableEq, Repr

/-- The Access Switcher's global protection mode (spec section 4.3). -/
inductive Mode where
  | prot
  | unprot (d : Nat)
deriving DecidableEq, Repr

/-- Effect of one event on the protection mode. -/
def applyEvent (m : Mode) : ProtEvent → Mode
  | .unprotect d => .unprot d
  | .protect => .prot
  | .copyFromUser _ => m
  | .setMessageSize _ => m

/-- Protection mode after running a whole trace from mode `m`. -/
def runMode (m : Mode) : List ProtEvent → Mode
  | [] => m
  | e :: es => runMode (applyEvent m e) es

/-- Protection discipline for a trace with owning domain `d`, scanned from
mode `m`: unprotect happens only while Protected and only for `d`, protect
only while Unprotected, the byte copy and the length recording happen only
while Unprotected, and the trace ends Protected. -/
def protDiscipline (d : Nat) : Mode → List ProtEvent → Bool
  | .prot, [] => true
  | .unprot _, [] => false
  | .prot, .unprotect d2 :: es => (d2 == d) && protDiscipline d (.unprot d2) es
  | .prot, _ :: _ => false
  | .unprot _, .protect :: es => protDiscipline d .prot es
  | .unprot _, .unprotect _ :: _ => false
  | .unprot dm, .copyFromUser _ :: es => protDiscipline d (.unprot dm) es
  | .unprot dm, .setMessageSize _ :: es => protDiscipline d (.unprot dm) es

/-- The driver's global state (src/parrot.c lines 33-34) together with the
memory bookkeeping the claims are about: which page addresses are live,
every address passed to `free_pages`, a fresh-address source for
`get_zeroed_page`, and each page's bytes and recorded `message_size`. -/
structure ParrotState where
  message : Option Capability
  parrot_pdomain : Nat
  domainAllocated : Bool
  livePages : List Nat
  freed : List Nat
  nextPage : Nat
  pageContents : Nat → List Nat
  pageMsgSize : Nat → Nat

/-- Modelled from the spec: `xmp_auth_ptr` as invoked by the driver,
authenticating a stored capability against the live store: the codec check
of spec section 4.2 plus section 8's replacement property, under which a
capability whose backing page has been freed no longer authenticates. -/
def xmp_auth_ptr (st : ParrotState) (cap : Capability) (c d : Nat) : Option Nat :=
  match authenticate cap c d (fun x => (x == st.parrot_pdomain) && st.domainAllocated) with
  | some a => if a ∈ st.livePages then some a else none
  | none => none

/-- `free_pages(addr, 0)`: the page at `addr` stops being live; the address
is also logged so frees can be counted. -/
def free_pages (st : ParrotState) (addr : Nat) : ParrotState :=
  { st with livePages := st.livePages.erase addr, freed := st.freed ++ [addr] }

/-- State after a successful `parrot_init` that obtained protection domain
`d` from `xmp_alloc_pdomain` (src/parrot.c lines 143-182; device glue
omitted): no message yet, no pages; page addresses start at 1 so that 0
plays the null pointer. -/
def parrot_init (d : Nat) : ParrotState :=
  { message := none, parrot_pdomain := d, domainAllocated := true,
    livePages := [], freed := [], nextPage := 1,
    pageContents := fun _ => [], pageMsgSize := fun _ => 0 }

/-- Bytes of a freshly zeroed page after `copy_from_user` writes `len`
bytes of `buffer` at its start.  The source bounds `len` against nothing:
when `len` exceeds `PAGE_SIZE` the written run is longer than the page. -/
def copiedPage (buffer : List Nat) (len : Nat) : List Nat :=
  buffer.take len ++ List.replicate (PAGE_SIZE - len) 0

/-- Result of `parrot_write`: the returned `ssize_t` is `len` on success,
`-EFAULT` on a user-copy fault, or the `PTR_ERR` of a failed allocation. -/
inductive WriteResult where
  | ok (n : Nat)
  | efault
  | allocFailed
deriving DecidableEq, Repr

/-- Shallow embedding of `parrot_write` (src/parrot.c lines 82-134).
`allocOk` models `get_zeroed_page` succeeding; `copyFault` models
`copy_from_user` reporting a nonzero uncopied count (a faulted copy is
modelled as copying nothing).  Returns the result, the new state, and the
trace of protection transitions and in-between actions.  As in the source:
an existing message's page is freed first (lines 93-96; a failed
authentication there degrades to the null address, mirroring the unchecked
cast on line 94); `message_size` is recorded before the copy fault is
checked (line 118); on a copy fault the new page is neither signed nor
stored (lines 121-124). -/
def parrot_write (st : ParrotState) (buffer : List Nat) (len : Nat)
    (allocOk copyFault : Bool) : WriteResult × ParrotState × List ProtEvent :=
  let st1 :=
    match st.message with
    | some cap => free_pages st ((xmp_auth_ptr st cap THIS_MODULE st.parrot_pdomain).getD 0)
    | none => st
  if allocOk then
    let addr := st1.nextPage
    let st2 := { st1 with
      nextPage := st1.nextPage + 1,
      livePages := st1.livePages ++ [addr],
      pageContents := fun a => if a = addr then List.replicate PAGE_SIZE 0 else st1.pageContents a,
      pageMsgSize := fun a => if a = addr then 0 else st1.pageMsgSize a }
    let events := [ProtEvent.unprotect st.parrot_pdomain, ProtEvent.copyFromUser len,
                   ProtEvent.setMessageSize len, ProtEvent.protect]
    let content := if copyFault then List.replicate PAGE_SIZE 0 else copiedPage buffer len
    let st3 := { st2 with
      pageContents := fun a => if a = addr then content else st2.pageContents a,
      pageMsgSize := fun a => if a = addr then len else st2.pageMsgSize a }
    if copyFault then (WriteResult.efault, st3, events)
    else (WriteResult.ok len,
      { st3 with message := some (xmp_sign_ptr addr THIS_MODULE st.parrot_pdomain) }, events)
  else (WriteResult.allocFailed, st1, [])

/-- Result of `parrot_read`: `ok bytes ret` is a successful `copy_to_user`
of `bytes` with return value `ret`; `efault` a failed copy; `crash` the
dereference of a null or poisoned pointer. -/
inductive ReadResult where
  | ok (bytes : List Nat) (ret : Int)
  | efault
  | crash
deriving DecidableEq, Repr

/-- Shallow embedding of `parrot_read` (src/parrot.c lines 57-80).  The
source authenticates the stored pointer with no null check and immediately
dereferences the result (lines 67-71): with an empty slot, or a capability
that fails authentication, it dereferences a null or poisoned pointer,
surfaced here as `crash`.  `len` is the caller-supplied transfer length
passed to `copy_to_user`; the recorded `message_size` is never consulted,
and success returns 0.  The read performs no protection transition and
leaves the state untouched. -/
def parrot_read (st : ParrotState) (len : Nat) (copyFault : Bool) :
    ReadResult × List ProtEvent :=
  (match st.message with
   | none => ReadResult.crash
   | some cap =>
     match xmp_auth_ptr st cap THIS_MODULE st.parrot_pdomain with
     | none => ReadResult.crash
     | some addr =>
       if copyFault then ReadResult.efault
       else ReadResult.ok ((st.pageContents addr).take len) 0, [])

/-- Outcome of `parrot_exit`: `derefEmpty` marks the teardown path that
authenticates an empty slot and frees the resulting poisoned address. -/
inductive ExitOutcome where
  | ok
  | derefEmpty
deriving DecidableEq, Repr

/-- Shallow embedding of `parrot_exit` (src/parrot.c lines 184-205; device
glue omitted).  The source unconditionally authenticates the slot and calls
`free_pages` on the result (lines 191-192): with an empty slot it
authenticates the null pointer and frees the poisoned (null) address,
surfaced as `derefEmpty`; the owned domain is then freed via
`xmp_free_pdomain` (line 197).  No protection transition is performed. -/
def parrot_exit (st : ParrotState) : ExitOutcome × ParrotState × List ProtEvent :=
  let p : ExitOutcome × ParrotState :=
    match st.message with
    | none => (ExitOutcome.derefEmpty, { free_pages st 0 with domainAllocated := false })
    | some cap =>
      (ExitOutcome.ok,
        { free_pages st ((xmp_auth_ptr st cap THIS_MODULE st.parrot_pdomain).getD 0) with
          domainAllocated := false })
  (p.1, p.2, [])

/-! ## Theorems -/

/-- C1: against the claim, `read` after `write b` does not return exactly
`b`: the copy length is the caller-supplied transfer length, not the length
written, and the returned count is 0.  Writing the two bytes "hi" and
reading with transfer length 5 yields five bytes (zero padded), not "hi". -/
theorem c1_read_not_last_written :
    (parrot_read ((parrot_write (parrot_init 1) [104, 105] 2 true false).2.1) 5 false).1
      = ReadResult.ok [104, 105, 0, 0, 0] 0 ∧
    [104, 105, 0, 0, 0] ≠ [104, 105] := by
  constructor
  · rfl
  · decide

/-- C2: against the claim, `read` on the never-written store does not fail
cleanly with a no-message error: for any transfer length the source feeds
the null slot to authentication and dereferences the result. -/
theorem c2_empty_read_crashes (d len : Nat) (copyFault : Bool) :
    (parrot_read (parrot_init d) len copyFault).1 = ReadResult.crash := rfl

/-- C3: against the claim, an oversized payload is not rejected before the
copy: writing 5000 bytes returns success for all 5000 bytes and the copy
step deposits a 5000-byte run into the 4096-byte page. -/
theorem c3_oversize_not_rejected :
    (parrot_write (parrot_init 1) (List.replicate 5000 97) 5000 true false).1
      = WriteResult.ok 5000 ∧
    ((parrot_write (parrot_init 1) (List.replicate 5000 97) 5000 true false).2.1.pageContents 1).length
      = 5000 ∧
    PAGE_SIZE < 5000 := by
  refine ⟨rfl, ?_, by decide⟩
  show (copiedPage (List.replicate 5000 97) 5000).length = 5000
  rw [copiedPage, List.length_append, List.length_take, List.length_replicate,
      List.length_replicate]
  norm_num [PAGE_SIZE]

/-- C4: against the claim, `read` copies the caller-supplied transfer
length, not the recorded `message_size`, and returns 0 rather than the byte
count: after writing 2 bytes (recorded size 2), a read with transfer length
5 yields 5 bytes and return value 0. -/
theorem c4_read_ignores_recorded_length :
    ((parrot_write (parrot_init 1) [104, 105] 2 true false).2.1.pageMsgSize 1 = 2) ∧
    (parrot_read ((parrot_write (parrot_init 1) [104, 105] 2 true false).2.1) 5 false).1
      = ReadResult.ok [104, 105, 0, 0, 0] 0 ∧
    ((5 : Nat) ≠ 2 ∧ (0 : Int) ≠ 2) := by
  refine ⟨rfl, rfl, by decide⟩

/-- C5: for every raw handle h, context c and allocated domain d,
authenticating the capability signed for (h, c, d) with the same c and d
yields exactly h (spec section 8, sign/authenticate round trip). -/
theorem c5_sign_auth_round_trip (h c d : Nat) (allocated : Nat → Bool)
    (halloc : allocated d = true) :
    authenticate (xmp_sign_ptr h c d) c d allocated = some h := by
  simp [authenticate, xmp_sign_ptr, halloc]

/-- Witness for C5 at h = 7, c = 2, d = 3 with every domain allocated. -/
theorem c5_witness :
    authenticate (xmp_sign_ptr 7 2 3) 2 3 (fun _ => true) = some 7 :=
  c5_sign_auth_round_trip 7 2 3 (fun _ => true) rfl

/-- C6: authentication fails whenever the presented context or the
presented domain differs from the signing one: a mismatched capability
never yields a handle (spec section 8, context and domain binding). -/
theorem c6_context_domain_binding (h c c1 c2 d d1 d2 : Nat) (allocated : Nat → Bool) :
    (c1 ≠ c2 → authenticate (xmp_sign_ptr h c1 d) c2 d allocated = none) ∧
    (d1 ≠ d2 → authenticate (xmp_sign_ptr h c d1) c d2 allocated = none) := by
  constructor
  · intro hne
    simp [authenticate, xmp_sign_ptr, hne]
  · intro hne
    simp [authenticate, xmp_sign_ptr, hne]

/-- Witness for C6: a context mismatch (1 vs 2) and a domain mismatch
(3 vs 4) each fail authentication. -/
theorem c6_witness :
    authenticate (xmp_sign_ptr 7 1 3) 2 3 (fun _ => true) = none ∧
    authenticate (xmp_sign_ptr 7 1 3) 1 4 (fun _ => true) = none :=
  ⟨(c6_context_domain_binding 7 1 1 2 3 3 4 (fun _ => true)).1 (by decide),
   (c6_context_domain_binding 7 1 1 2 3 3 4 (fun _ => true)).2 (by decide)⟩

/-- C7: two sequential successful writes leave exactly one live page: the
second write authenticates and frees the first page (address 1) exactly
once, the new page (address 2) is the only live one, and the first page's
capability no longer authenticates afterwards. -/
theorem c7_replacement_frees_once (d : Nat) (b1 b2 : List Nat) (l1 l2 : Nat) :
    (parrot_write (parrot_write (parrot_init d) b1 l1 true false).2.1 b2 l2 true false).1
      = WriteResult.ok l2 ∧
    (parrot_write (parrot_write (parrot_init d) b1 l1 true false).2.1 b2 l2 true false).2.1.livePages
      = [2] ∧
    (parrot_write (parrot_write (parrot_init d) b1 l1 true false).2.1 b2 l2 true false).2.1.freed
      = [1] ∧
    (parrot_write (parrot_init d) b1 l1 true false).2.1.message
      = some (xmp_sign_ptr 1 THIS_MODULE d) ∧
    xmp_auth_ptr (parrot_write (parrot_write (parrot_init d) b1 l1 true false).2.1 b2 l2 true false).2.1
      (xmp_sign_ptr 1 THIS_MODULE d) THIS_MODULE d = none := by
  simp [parrot_write, parrot_init, xmp_auth_ptr, authenticate, xmp_sign_ptr,
        free_pages, THIS_MODULE, List.erase]

/-- C8: protection discipline: every write trace alternates
unprotect/protect for the store's own domain, starting and ending in the
Protected mode, with the byte copy and the length recording as the only
actions taken while Unprotected; read and teardown perform no protection
transition at all. -/
theorem c8_protection_pairing (st : ParrotState) (b : List Nat) (len : Nat)
    (allocOk copyFault : Bool) (len2 : Nat) (copyFault2 : Bool) :
    protDiscipline st.parrot_pdomain Mode.prot (parrot_write st b len allocOk copyFault).2.2 = true ∧
    runMode Mode.prot (parrot_write st b len allocOk copyFault).2.2 = Mode.prot ∧
    (parrot_read st len2 copyFault2).2 = [] ∧
    (parrot_exit st).2.2 = [] := by
  cases allocOk <;> cases copyFault <;>
    simp [parrot_write, parrot_read, parrot_exit, protDiscipline, runMode, applyEvent]

/-- C9: against the claim, teardown does not skip an empty slot: on the
never-written store `parrot_exit` authenticates the null slot and frees the
resulting poisoned address (`derefEmpty`); the owned domain is then
freed. -/
theorem c9_exit_empty_slot (d : Nat) :
    (parrot_exit (parrot_init d)).1 = ExitOutcome.derefEmpty ∧
    (parrot_exit (parrot_init d)).2.1.domainAllocated = false :=
  ⟨rfl, rfl⟩

/-- C10: when `copy_from_user` faults during a write that replaced an
existing message, the write returns EFAULT, the slot still holds the old
capability (for page 1) whose backing page this very call already freed,
and the freshly allocated page 2 is live but never signed or stored. -/
theorem c10_fault_leaves_stale_capability (d : Nat) (b1 b2 : List Nat) (l1 l2 : Nat) :
    (parrot_write (parrot_write (parrot_init d) b1 l1 true false).2.1 b2 l2 true true).1
      = WriteResult.efault ∧
    (parrot_write (parrot_write (parrot_init d) b1 l1 true false).2.1 b2 l2 true true).2.1.message
      = some (xmp_sign_ptr 1 THIS_MODULE d) ∧
    (parrot_write (parrot_write (parrot_init d) b1 l1 true false).2.1 b2 l2 true true).2.1.freed
      = [1] ∧
    (parrot_write (parrot_write (parrot_init d) b1 l1 true false).2.1 b2 l2 true true).2.1.livePages
      = [2] ∧
    some (xmp_sign_ptr 1 THIS_MODULE d) ≠ some (xmp_sign_ptr 2 THIS_MODULE d) := by
  simp [parrot_write, parrot_init, xmp_auth_ptr, authenticate, xmp_sign_ptr,
        free_pages, THIS_MODULE, List.erase]

end Parrot
